import Mathlib

/-!
Shallow embedding of the tvdbpy library (src/tvdbpy/helpers.py, src/tvdbpy/tvdb.py).

The HTTP transport, XML parser and zip extraction are black boxes per the design:
we model a decoded XML tree directly (`XmlElem`) and the network as an oracle
`net : String → XmlElem` mapping a request URL to the decoded XML payload (for
archive endpoints, to the parsed named member).  Every client operation returns
its result together with the list of request URLs it issued, in order, so that
"performs zero network calls" is the statement that this list is empty.
-/

namespace Tvdbpy

/-- An XML element as the code observes it through xml.etree: a tag, its own text
(`None` when the element is empty), and its direct children.  The code only ever
queries direct children (`find('Name')`, `findall('./Name')`, `findall('./')`). -/
structure XmlElem where
  tag : String
  text : Option String
  children : List XmlElem
deriving Repr

/-- `node.find(name)`: first direct child whose tag matches, or None. -/
def XmlElem.find (xml : XmlElem) (name : String) : Option XmlElem :=
  xml.children.find? (fun c => c.tag == name)

/-- `node.findall('./Name')`: every direct child whose tag matches, in document order. -/
def XmlElem.findall_tag (xml : XmlElem) (name : String) : List XmlElem :=
  xml.children.filter (fun c => c.tag == name)

/-- `node.findall('./')` as used by `updated`: all direct children in order. -/
def XmlElem.findall_children (xml : XmlElem) : List XmlElem :=
  xml.children

/-- `BaseTvDB._elem_value(xml_data, elem_name)` without a cast:
`elem = xml_data.find(elem_name); value = getattr(elem, 'text', None)`.
Missing child, or child with no text, both yield None. -/
def elem_value (xml : XmlElem) (name : String) : Option String :=
  match xml.find name with
  | none => none
  | some elem => elem.text

/-- `BaseTvDB._elem_value` with a cast: the source applies `cast` only when both a
cast was supplied and the extracted value is not None. -/
def elem_value_cast {α : Type} (xml : XmlElem) (name : String) (cast : String → α) :
    Option α :=
  (elem_value xml name).map cast

/-- Python `s[1:-1]`: drop the first and the last code point. -/
def py_strip_ends (s : String) : String :=
  String.mk ((s.data.drop 1).dropLast)

/-- Python `s.split(sep)` for a single-character separator, on the code points:
split at every occurrence of `sep`; the empty string yields `[""]`. -/
def split_chars (sep : Char) : List Char → List (List Char)
  | [] => [[]]
  | c :: rest =>
      let r := split_chars sep rest
      if c == sep then [] :: r
      else
        match r with
        | [] => [[c]]
        | h :: t => (c :: h) :: t

/-- Python `s.split(sep)` on strings. -/
def py_split (s : String) (sep : Char) : List String :=
  (split_chars sep s.data).map String.mk

/-- `BaseTvDB._elem_list_value`: read the scalar; `if data:` (so both None and the
empty string fall through to None), else `data[1:-1].split('|')`. -/
def elem_list_value (xml : XmlElem) (name : String) : Option (List String) :=
  match elem_value xml name with
  | none => none
  | some data => if data = "" then none else some (py_split (py_strip_ends data) '|')

/-- Python `s.lower()`, code point by code point (identical to the source's use on
plain-ASCII XML tag names). -/
def py_lower (s : String) : String :=
  String.mk (s.data.map Char.toLower)

/-- Exceptions raised by the code paths modelled here. `invalidArgument` stands for
`raise TvDBException(msg)` on argument validation, `attributeError` for a Python
AttributeError on a name never assigned. -/
inductive Err where
  | apiKeyRequired
  | apiClientNotAvailable
  | invalidArgument (msg : String)
  | attributeError (name : String)
deriving Repr, DecidableEq

def base_api_url : String := "http://thetvdb.com/api/"

def base_image_url : String := "http://thetvdb.com/banners/"

/-- `urlparse.urljoin` restricted to the shapes the code produces: a relative path
resolved against a fixed absolute base ending in '/'.  An empty url returns the
base unchanged, as in the source library. -/
def urljoin (base url : String) : String :=
  if url = "" then base else base ++ url

/-- Python `'%s' % v` for an optional string: None prints as "None". -/
def pyStr (v : Option String) : String :=
  v.getD "None"

/-- Request URL for a relative API path (`_get` joins it against the base API url). -/
def api_url (path : String) : String :=
  urljoin base_api_url path

/-! ## Update records -/

/-- The metadata attributes `Update.__init__` assigns only when `metadata=True`.
`timestamp` models `cast=lambda v: datetime.utcfromtimestamp(int(v))` by the
parsed integer epoch (the calendar conversion is injective on it); a present but
non-numeric `time` field would raise in Python and is conflated with absence here,
a case no claim touches. -/
structure UpdateMeta where
  series : Option String
  season : Option String
  path : Option String
  type : Option String
  format : Option String
  language : Option String
  timestamp : Option Int
deriving Repr, DecidableEq

/-- `Update`: id, kind (tag lower-cased) and, when constructed with
`metadata=True`, the metadata attributes.  `meta = none` models the
`metadata=False` construction, where those attributes are never assigned at all
(reading them raises AttributeError). -/
structure Update where
  id : Option String
  kind : String
  meta : Option UpdateMeta
deriving Repr, DecidableEq

/-- `Update.__init__(xml_data, metadata)` . -/
def Update.ofXml (xml : XmlElem) (metadata : Bool) : Update :=
  { id := elem_value xml "id"
    kind := py_lower xml.tag
    meta :=
      if metadata then
        some { series := elem_value xml "Series"
               season := elem_value xml "SeasonNum"
               path := elem_value xml "path"
               type := elem_value xml "type"
               format := elem_value xml "format"
               language := elem_value xml "language"
               timestamp := (elem_value xml "time").bind String.toInt? }
      else none }

/-- `Update.id_only(xml_data)`: build with `metadata=False`, then overwrite `id`
with the element's own text. -/
def Update.id_only (xml : XmlElem) : Update :=
  let item := Update.ofXml xml false
  { item with id := xml.text }

/-! ## Series and Episode records -/

/-- The data fields a `Series` instance carries after `BaseSeries.__init__` and
`Series.__init__` ran (everything except the mutable `_seasons` cell).  `rating`
and `rating_count` keep the raw text together with the source's cast semantics
(`cast` applied only when present): the float cast is a black-box numeric parse no
claim inspects, so `rating` stores the raw text it is applied to. -/
structure SeriesData where
  id : Option String
  imdb_id : Option String
  name : Option String
  overview : Option String
  language : Option String
  _first_aired : Option String
  network : Option String
  _banner : Option String
  runtime : Option String
  status : Option String
  _poster : Option String
  actors : Option (List String)
  genre : Option (List String)
  rating : Option String
  rating_count : Option Int
deriving Repr, DecidableEq

/-- Field extraction of `BaseSeries.__init__` plus `Series.__init__`. -/
def SeriesData.ofXml (xml : XmlElem) : SeriesData :=
  { id := elem_value xml "id"
    imdb_id := elem_value xml "IMDB_ID"
    name := elem_value xml "SeriesName"
    overview := elem_value xml "Overview"
    language := elem_value xml "language"
    _first_aired := elem_value xml "FirstAired"
    network := elem_value xml "Network"
    _banner := elem_value xml "banner"
    runtime := elem_value xml "Runtime"
    status := elem_value xml "Status"
    _poster := elem_value xml "poster"
    actors := elem_list_value xml "Actors"
    genre := elem_list_value xml "Genre"
    rating := elem_value xml "Rating"
    rating_count := (elem_value xml "RatingCount").bind String.toInt? }

/-- `BaseSeries.banner` property: `if self._banner: return urljoin(base, self._banner)`;
a falsy path (None or empty) yields None. -/
def SeriesData.banner (s : SeriesData) : Option String :=
  match s._banner with
  | some b => if b = "" then none else some (urljoin base_image_url b)
  | none => none

/-- `Series.poster` property, same truthiness pattern as `banner`. -/
def SeriesData.poster (s : SeriesData) : Option String :=
  match s._poster with
  | some p => if p = "" then none else some (urljoin base_image_url p)
  | none => none

/-- An `Episode` instance.  `_series` is the lazily-resolved back-reference; since
the Python object graph is cyclic (an episode in a seasons map points back at the
owning Series), the back-reference stores the series' data snapshot. -/
structure Episode where
  _series : Option SeriesData
  id : Option String
  imdb_id : Option String
  series_id : Option String
  number : Option Int
  season : Option Int
  name : Option String
  overview : Option String
  guest_stars : Option (List String)
  director : Option String
  writers : Option (List String)
  language : Option String
  _image : Option String
  _first_aired : Option String
  rating : Option String
  rating_count : Option Int
deriving Repr, DecidableEq

/-- `Episode.__init__(xml_data, series=None)`.  `number`/`season` carry the
`cast=int` results; a present but non-numeric text would raise in Python and is
conflated with absence here, a case no claim touches. -/
def Episode.ofXml (xml : XmlElem) (series : Option SeriesData := none) : Episode :=
  { _series := series
    id := elem_value xml "id"
    imdb_id := elem_value xml "IMDB_ID"
    series_id := elem_value xml "seriesid"
    number := (elem_value xml "EpisodeNumber").bind String.toInt?
    season := (elem_value xml "SeasonNumber").bind String.toInt?
    name := elem_value xml "EpisodeName"
    overview := elem_value xml "Overview"
    guest_stars := elem_list_value xml "GuestStars"
    director := elem_value xml "Director"
    writers := elem_list_value xml "Writer"
    language := elem_value xml "Language"
    _image := elem_value xml "filename"
    _first_aired := elem_value xml "FirstAired"
    rating := elem_value xml "Rating"
    rating_count := (elem_value xml "RatingCount").bind String.toInt? }

/-- `Episode.image` property: same truthiness pattern as `banner`. -/
def Episode.image (e : Episode) : Option String :=
  match e._image with
  | some i => if i = "" then none else some (urljoin base_image_url i)
  | none => none

/-- The two-level season map: season number → (episode number → Episode), as an
association list (dict iteration order is not observable to any claim). -/
abbrev SeasonsMap := List (Option Int × List (Option Int × Episode))

/-- `d[k] = v` on a dict modelled as an association list: replace in place, append
when the key is new. -/
def dict_set {α : Type} (m : List (Option Int × α)) (k : Option Int) (v : α) :
    List (Option Int × α) :=
  match m with
  | [] => [(k, v)]
  | (k0, v0) :: rest =>
      if k0 == k then (k0, v) :: rest else (k0, v0) :: dict_set rest k v

/-- `self._seasons[e.season][e.number] = e` on a `defaultdict(dict)`. -/
def seasons_insert (m : SeasonsMap) (e : Episode) : SeasonsMap :=
  let inner := (m.lookup e.season).getD []
  dict_set m e.season (dict_set inner e.number e)

/-- All episodes stored in a seasons map. -/
def seasons_episodes (m : SeasonsMap) : List Episode :=
  (m.map (fun p => p.2.map Prod.snd)).flatten

/-- A `Series` instance: its immutable data plus the memoized `_seasons` cell
(initialised to None by `Series.__init__`). -/
structure Series where
  data : SeriesData
  _seasons : Option SeasonsMap
deriving Repr, DecidableEq

/-- `Series.__init__`. -/
def Series.ofXml (xml : XmlElem) : Series :=
  { data := SeriesData.ofXml xml, _seasons := none }

/-! ## Parse helpers and the client -/

/-- `BaseTvDB._parse_entry(response, cls, './Key')`: find the first matching
direct child, apply the constructor when present, otherwise None. -/
def parse_entry {α : Type} (response : XmlElem) (key : String) (cls : XmlElem → α) :
    Option α :=
  (response.find key).map cls

/-- `BaseTvDB._parse_multiple_entries(response, cls, './Key')`: `findall` never
returns None, so the result is always a list (possibly empty). -/
def parse_multiple_entries {α : Type} (response : XmlElem) (key : String)
    (cls : XmlElem → α) : List α :=
  (response.findall_tag key).map cls

/-- `TvDB` client: holds only the optional API key. -/
structure TvDB where
  api_key : Option String
deriving Repr, DecidableEq

/-- `Series._load_episodes(data)` with already-fetched archive data: parse every
`./Episode` fragment, wire each episode's `_series` back-reference to the owning
series, and build the seasons map by insertion in document order. -/
def Series.load_episodes_from (s : Series) (data : XmlElem) : Series :=
  let episodes := parse_multiple_entries data "Episode" (fun d => Episode.ofXml d)
  let wired := episodes.map (fun e => { e with _series := some s.data })
  { s with _seasons := some (wired.foldl seasons_insert []) }

/-- `TvDB._get_series_full_data` request URL: `'%s/series/%s/all/en.zip'` of the
client's key and the series id, joined against the base API url.  The key is not
validated here (private method, no decorator), so a missing key prints as "None". -/
def full_data_url (c : TvDB) (series_id : Option String) : String :=
  api_url (pyStr c.api_key ++ "/series/" ++ pyStr series_id ++ "/all/en.zip")

/-- `Series._load_episodes()` with `data=None`: fetch the archive through the
client, then build the map.  Returns the updated series and the requests issued. -/
def Series.load_episodes (s : Series) (c : TvDB) (net : String → XmlElem) :
    Series × List String :=
  let url := full_data_url c s.data.id
  (s.load_episodes_from (net url), [url])

/-- `Series.seasons` property: memoized — load only when the cell is None.
Returns (map, updated series, requests issued). -/
def Series.seasons (s : Series) (c : TvDB) (net : String → XmlElem) :
    SeasonsMap × Series × List String :=
  match s._seasons with
  | some m => (m, s, [])
  | none =>
      let loaded := s.load_episodes c net
      ((loaded.1._seasons).getD [], loaded.1, loaded.2)

/-- `TvDB._parse_full_series(data)`: parse the single `./Series` entry; when found
(`if series:` — instances are always truthy) load its episodes from the same data. -/
def parse_full_series (data : XmlElem) : Option Series :=
  match parse_entry data "Series" Series.ofXml with
  | none => none
  | some s => some (s.load_episodes_from data)

/-- Request URL of `get_series_by_id` in the non-extended branch. -/
def series_url (key : String) (series_id : Option String) : String :=
  api_url (key ++ "/series/" ++ pyStr series_id ++ "/en.xml")

/-- `TvDB.get_series_by_id(series_id, extended)`, `@api_key_required`: the key is
checked before anything else; on failure no request is issued. -/
def TvDB.get_series_by_id (c : TvDB) (net : String → XmlElem)
    (series_id : Option String) (extended : Bool) :
    Except Err (Option Series) × List String :=
  match c.api_key with
  | none => (.error .apiKeyRequired, [])
  | some key =>
      if extended then
        let url := full_data_url c series_id
        (.ok (parse_full_series (net url)), [url])
      else
        let url := series_url key series_id
        (.ok (parse_entry (net url) "Series" Series.ofXml), [url])

/-- Request URL of `get_episode_by_id`. -/
def episode_url (key : String) (episode_id : Option String) : String :=
  api_url (key ++ "/episodes/" ++ pyStr episode_id ++ "/en.xml")

/-- `TvDB.get_episode_by_id(episode_id)`, `@api_key_required`. -/
def TvDB.get_episode_by_id (c : TvDB) (net : String → XmlElem)
    (episode_id : Option String) :
    Except Err (Option Episode) × List String :=
  match c.api_key with
  | none => (.error .apiKeyRequired, [])
  | some key =>
      let url := episode_url key episode_id
      (.ok (parse_entry (net url) "Episode" (fun d => Episode.ofXml d)), [url])

/-- Request URL of `get_episode`. -/
def episode_by_number_url (key : String) (series_id : Option String)
    (season number : String) : String :=
  api_url (key ++ "/series/" ++ pyStr series_id ++ "/default/" ++ season ++ "/" ++
    number ++ "/en.xml")

/-- `TvDB.get_episode(series_id, season, number)`, `@api_key_required`. -/
def TvDB.get_episode (c : TvDB) (net : String → XmlElem) (series_id : Option String)
    (season number : String) :
    Except Err (Option Episode) × List String :=
  match c.api_key with
  | none => (.error .apiKeyRequired, [])
  | some key =>
      let url := episode_by_number_url key series_id season number
      (.ok (parse_entry (net url) "Episode" (fun d => Episode.ofXml d)), [url])

/-- `TvDB.updated(timeframe=None)`, `@api_key_required`: after the key check,
default to 'day', validate the timeframe before building any request, then fetch
the archive and parse every root-level element (`findall('./')`) as a full
(metadata-bearing) Update. -/
def TvDB.updated (c : TvDB) (net : String → XmlElem) (timeframe : Option String) :
    Except Err (List Update) × List String :=
  match c.api_key with
  | none => (.error .apiKeyRequired, [])
  | some key =>
      let tf := timeframe.getD "day"
      if tf ∈ (["day", "week", "month", "all"] : List String) then
        let url := api_url (key ++ "/updates/updates_" ++ tf ++ ".zip")
        let data := net url
        (.ok (data.findall_children.map (fun d => Update.ofXml d true)), [url])
      else
        (.error (.invalidArgument "Invalid timeframe specified"), [])

/-- Request URL of `updated_since`. -/
def updates_since_url (kind timestamp : String) : String :=
  api_url ("Updates.php?type=" ++ kind ++ "&time=" ++ timestamp)

/-- `TvDB.updated_since(timestamp, kind=None)`: no API-key decorator; default the
kind to 'all', validate it before building any request, then parse the `./Series`
entries followed by the `./Episode` entries, each as an id-only Update. -/
def TvDB.updated_since (c : TvDB) (net : String → XmlElem) (timestamp : String)
    (kind : Option String) :
    Except Err (List Update) × List String :=
  let k := kind.getD "all"
  if k ∈ (["series", "episode", "all"] : List String) then
    let url := updates_since_url k timestamp
    let response := net url
    let series := parse_multiple_entries response "Series" Update.id_only
    let episodes := parse_multiple_entries response "Episode" Update.id_only
    (.ok (series ++ episodes), [url])
  else
    (.error (.invalidArgument "Invalid kind specified"), [])

/-- `Episode.series` property: return the pre-set back-reference if any; otherwise
`self._series = self._client.get_series_by_id(self.series_id)` (default
`extended=False`), then return it.  The stored value is the fetched series' data
snapshot; when the lookup finds nothing, None is stored, i.e. the cell stays
unset.  Returns (value, updated episode, requests issued). -/
def Episode.series (e : Episode) (c : TvDB) (net : String → XmlElem) :
    Except Err (Option SeriesData × Episode × List String) :=
  match e._series with
  | some s => .ok (some s, e, [])
  | none =>
      match c.get_series_by_id net e.series_id false with
      | (.error err, _) => .error err
      | (.ok res, reqs) =>
          let v := res.map Series.data
          .ok (v, { e with _series := v }, reqs)

/-- The result of `Update.get_updated_item`: a series, an episode, a plain URL
string for banners, or None when the kind matches no branch. -/
inductive UpdatedItem where
  | series (s : Option Series)
  | episode (e : Option Episode)
  | url (u : String)
  | noneItem
deriving Repr, DecidableEq

/-- `Update.get_updated_item(extended=False)`: the source raises
APIClientNotAvailableError whenever `self._client is None`, before looking at the
kind.  With a client, dispatch on kind: series/episode delegate to the client's
getters with this update's id; banner joins the base image url with `self.path`
(reading `path` on a `metadata=False` instance raises AttributeError, and
`urljoin(base, None)` returns the base). -/
def Update.get_updated_item (u : Update) (client : Option TvDB)
    (net : String → XmlElem) (extended : Bool) :
    Except Err UpdatedItem × List String :=
  match client with
  | none => (.error .apiClientNotAvailable, [])
  | some c =>
      if u.kind = "series" then
        match c.get_series_by_id net u.id extended with
        | (.ok s, reqs) => (.ok (.series s), reqs)
        | (.error err, reqs) => (.error err, reqs)
      else if u.kind = "episode" then
        match c.get_episode_by_id net u.id with
        | (.ok ep, reqs) => (.ok (.episode ep), reqs)
        | (.error err, reqs) => (.error err, reqs)
      else if u.kind = "banner" then
        match u.meta with
        | none => (.error (.attributeError "path"), [])
        | some m =>
            match m.path with
            | some p => (.ok (.url (urljoin base_image_url p)), [])
            | none => (.ok (.url base_image_url), [])
      else
        (.ok .noneItem, [])

/-- `Series.get_episode(season, number)` begins by reading `self._episodes`, an
attribute name; the remaining body is transcribed for completeness, with the
truthiness of the (never-assigned) attribute as an explicit parameter.
`attrs` is the set of attribute names actually assigned on the instance. -/
def Series.get_episode (s : Series) (c : TvDB) (net : String → XmlElem)
    (season number : Int) (attrs : List String) (episodes_truthy : Bool) :
    Except Err (Option Episode) × List String :=
  if "_episodes" ∈ attrs then
    if episodes_truthy then
      match s._seasons with
      | none => (.error (.attributeError "get"), [])
      | some m => (.ok (((m.lookup (some season)).getD []).lookup (some number)), [])
    else
      c.get_episode net s.data.id (toString season) (toString number)
  else
    (.error (.attributeError "_episodes"), [])

/-- Every attribute name ever assigned on a `Series` instance, transcribed from
each `self.<name> = ...` statement in `BaseTvDB.__init__`, `BaseSeries.__init__`
and `Series.__init__`; `Series._load_episodes` and the `seasons` property only
reassign `_seasons`, and no other code path writes to a Series.  In particular
`_episodes` is never assigned. -/
def series_assigned_attrs : List String :=
  ["_client",
   "id", "imdb_id", "name", "overview", "language", "_first_aired", "network",
   "_banner",
   "runtime", "status", "_poster", "actors", "genre", "rating", "rating_count",
   "_seasons"]

/-! ## Concrete fixtures (used by witnesses and counterexamples) -/

/-- A response root with no children: no `./Series`, no `./Episode`. -/
def empty_root : XmlElem := ⟨"Data", none, []⟩

/-- A network oracle whose every response is the empty root. -/
def net_empty : String → XmlElem := fun _ => empty_root

/-- A client holding an API key. -/
def client_with_key : TvDB := ⟨some "123456789"⟩

/-- A client holding no API key. -/
def client_no_key : TvDB := ⟨none⟩

/-- A `<Series>` fragment whose `Actors` child stores the text `|A|B|C|`. -/
def actors_node_ex : XmlElem :=
  ⟨"Series", none, [⟨"Actors", some "|A|B|C|", []⟩]⟩

/-- A banner-kind update element carrying a `path` child, as found in an updates
archive. -/
def banner_xml_ex : XmlElem :=
  ⟨"Banner", none, [⟨"Series", some "80348", []⟩, ⟨"path", some "posters/77170.jpg", []⟩]⟩

/-- The metadata-bearing Update built from `banner_xml_ex`. -/
def banner_update_ex : Update := Update.ofXml banner_xml_ex true

/-- A standalone episode: no pre-set series back-reference, `seriesid` 80348. -/
def episode_standalone_ex : Episode :=
  Episode.ofXml ⟨"Episode", none,
    [⟨"id", some "332179", []⟩, ⟨"seriesid", some "80348", []⟩]⟩

/-- A series as returned by a non-extended fetch: `_seasons` unset. -/
def series_ex : Series :=
  Series.ofXml ⟨"Series", none, [⟨"id", some "80348", []⟩]⟩

/-- A full-series archive root: the series entry plus two episode fragments. -/
def archive_root_ex : XmlElem :=
  ⟨"Data", none,
    [⟨"Series", none, [⟨"id", some "80348", []⟩]⟩,
     ⟨"Episode", none,
       [⟨"id", some "332179", []⟩, ⟨"SeasonNumber", some "1", []⟩,
        ⟨"EpisodeNumber", some "1", []⟩]⟩,
     ⟨"Episode", none,
       [⟨"id", some "332180", []⟩, ⟨"SeasonNumber", some "1", []⟩,
        ⟨"EpisodeNumber", some "2", []⟩]⟩]⟩

/-- A network oracle always answering with the full-series archive root. -/
def net_archive : String → XmlElem := fun _ => archive_root_ex

/-- A network oracle answering with a document holding one `./Series` entry. -/
def net_series_found : String → XmlElem :=
  fun _ => ⟨"Data", none, [⟨"Series", none, [⟨"id", some "80348", []⟩]⟩]⟩

/-- An updates-since response: one `./Series` id element then one `./Episode` id
element, each carrying the id as its own text (and a decoy `id` child to show the
element's own text wins). -/
def updates_since_root_ex : XmlElem :=
  ⟨"Items", none,
    [⟨"Series", some "80348", [⟨"id", some "999", []⟩]⟩,
     ⟨"Episode", some "332179", []⟩]⟩

/-- A network oracle answering with `updates_since_root_ex`. -/
def net_updates_since : String → XmlElem := fun _ => updates_since_root_ex

/-- A `<Series>` fragment carrying both relative image paths. -/
def series_with_images_ex : XmlElem :=
  ⟨"Series", none,
    [⟨"banner", some "graphical/80348-g32.jpg", []⟩,
     ⟨"poster", some "posters/80348.jpg", []⟩]⟩

/-- An `<Episode>` fragment carrying its relative image path. -/
def episode_with_image_ex : XmlElem :=
  ⟨"Episode", none, [⟨"filename", some "episodes/80348/332179.jpg", []⟩]⟩

/-- The data of the series the `net_series_found` oracle answers with. -/
def fetched_series_data_ex : SeriesData :=
  SeriesData.ofXml ⟨"Series", none, [⟨"id", some "80348", []⟩]⟩

/-- The standalone episode after its back-reference was resolved and memoized. -/
def episode_memoized_ex : Episode :=
  { episode_standalone_ex with _series := some fetched_series_data_ex }

/-! ## Theorems -/

/-- C2: for every out-of-enumeration argument, `updated(timeframe)` with a
timeframe outside {day, week, month, all} and `updated_since(timestamp, kind)`
with a kind outside {series, episode, all} both fail with the invalid-argument
error and issue zero network requests: validation happens before any request is
built (the result does not depend on the network oracle, and the request log is
empty). -/
theorem invalid_enum_arguments_fail_without_request (c : TvDB) (key : String)
    (net : String → XmlElem) (tf k ts : String)
    (hkey : c.api_key = some key)
    (htf : tf ∉ (["day", "week", "month", "all"] : List String))
    (hk : k ∉ (["series", "episode", "all"] : List String)) :
    c.updated net (some tf) =
      (.error (.invalidArgument "Invalid timeframe specified"), []) ∧
    c.updated_since net ts (some k) =
      (.error (.invalidArgument "Invalid kind specified"), []) := by
  constructor
  · simp [TvDB.updated, hkey, htf]
  · simp [TvDB.updated_since, hk]

/-- Witness for C2 at a concrete client, oracle and arguments. -/
theorem invalid_enum_arguments_fail_without_request_witness :
    TvDB.updated client_with_key net_empty (some "anything-invalid") =
      (.error (.invalidArgument "Invalid timeframe specified"), []) ∧
    TvDB.updated_since client_with_key net_empty "1234567890" (some "anything-invalid") =
      (.error (.invalidArgument "Invalid kind specified"), []) :=
  invalid_enum_arguments_fail_without_request client_with_key "123456789" net_empty
    "anything-invalid" "anything-invalid" "1234567890" rfl (by decide) (by decide)

/-- C3: every operation guarded by the api-key-required decorator
(`get_series_by_id`, `get_episode_by_id`, `get_episode`, `updated`) fails with
the api-key-required error and issues zero network requests when the client holds
no key: the key is checked before anything else. -/
theorem api_key_required_checked_before_request (c : TvDB) (net : String → XmlElem)
    (sid eid : Option String) (season number : String) (tfr : Option String)
    (ext : Bool) (h : c.api_key = none) :
    c.get_series_by_id net sid ext = (.error .apiKeyRequired, []) ∧
    c.get_episode_by_id net eid = (.error .apiKeyRequired, []) ∧
    c.get_episode net sid season number = (.error .apiKeyRequired, []) ∧
    c.updated net tfr = (.error .apiKeyRequired, []) := by
  refine ⟨?_, ?_, ?_, ?_⟩ <;>
    simp [TvDB.get_series_by_id, TvDB.get_episode_by_id, TvDB.get_episode,
      TvDB.updated, h]

/-- Witness for C3 at a concrete keyless client. -/
theorem api_key_required_checked_before_request_witness :
    TvDB.get_series_by_id client_no_key net_empty (some "80348") false =
      (.error .apiKeyRequired, []) ∧
    TvDB.get_episode_by_id client_no_key net_empty (some "332179") =
      (.error .apiKeyRequired, []) ∧
    TvDB.get_episode client_no_key net_empty (some "80348") "1" "1" =
      (.error .apiKeyRequired, []) ∧
    TvDB.updated client_no_key net_empty (some "day") =
      (.error .apiKeyRequired, []) :=
  api_key_required_checked_before_request client_no_key net_empty (some "80348")
    (some "332179") "1" "1" (some "day") false rfl

/-- C4: for every node and tag name, the list extraction reads the scalar text;
on stored text of the delimited form `|…|` it strips exactly the one leading and
one trailing delimiter and splits the interior on `|` (so `|A|B|C|` yields
`[A, B, C]`); an absent field yields unset, not an empty list. -/
theorem elem_list_value_strip_split (node : XmlElem) (tag : String)
    (mid : List Char)
    (hpresent : elem_value node tag = some (String.mk ('|' :: (mid ++ ['|'])))) :
    elem_list_value node tag = some (py_split (String.mk mid) '|') ∧
    (∀ n2 t2, elem_value n2 t2 = none → elem_list_value n2 t2 = none) ∧
    elem_list_value actors_node_ex "Actors" = some ["A", "B", "C"] := by
  refine ⟨?_, ?_, by decide⟩
  · have hne : String.mk ('|' :: (mid ++ ['|'])) ≠ "" := by
      simp [String.ext_iff]
    have hstrip : py_strip_ends (String.mk ('|' :: (mid ++ ['|']))) = String.mk mid := by
      simp [py_strip_ends]
    simp [elem_list_value, hpresent, hne, hstrip]
  · intro n2 t2 h
    simp [elem_list_value, h]

/-- Witness for C4: the fixture node stores `|A|B|C|` and the extraction yields
exactly the interior split. -/
theorem elem_list_value_strip_split_witness :
    elem_list_value actors_node_ex "Actors" =
      some (py_split (String.mk "A|B|C".data) '|') ∧
    elem_list_value actors_node_ex "Actors" = some ["A", "B", "C"] :=
  have h := elem_list_value_strip_split actors_node_ex "Actors" "A|B|C".data (by decide)
  ⟨h.1, h.2.2⟩

/-- C5: missing individual fields never raise: scalar extraction is unset when
the named child is absent or carries no text; a cast is applied exactly when a
value is present; and each get-by-id style call whose response lacks the queried
root element returns an unset value (still issuing its one request), not an
error. -/
theorem missing_fields_yield_unset {α : Type} (node : XmlElem) (tag : String)
    (cast : String → α) (c : TvDB) (key : String) (net : String → XmlElem)
    (sid eid : Option String) (season number : String)
    (hkey : c.api_key = some key) :
    (node.find tag = none → elem_value node tag = none) ∧
    (∀ child, node.find tag = some child → child.text = none →
      elem_value node tag = none) ∧
    (elem_value node tag = none → elem_value_cast node tag cast = none) ∧
    (∀ v, elem_value node tag = some v → elem_value_cast node tag cast = some (cast v)) ∧
    ((net (series_url key sid)).find "Series" = none →
      c.get_series_by_id net sid false = (.ok none, [series_url key sid])) ∧
    ((net (episode_url key eid)).find "Episode" = none →
      c.get_episode_by_id net eid = (.ok none, [episode_url key eid])) ∧
    ((net (episode_by_number_url key sid season number)).find "Episode" = none →
      c.get_episode net sid season number =
        (.ok none, [episode_by_number_url key sid season number])) := by
  refine ⟨?_, ?_, ?_, ?_, ?_, ?_, ?_⟩
  · intro h; simp [elem_value, h]
  · intro child h ht; simp [elem_value, h, ht]
  · intro h; simp [elem_value_cast, h]
  · intro v h; simp [elem_value_cast, h]
  · intro h; simp [TvDB.get_series_by_id, hkey, parse_entry, h]
  · intro h; simp [TvDB.get_episode_by_id, hkey, parse_entry, h]
  · intro h; simp [TvDB.get_episode, hkey, parse_entry, h]

/-- Witness for C5 at the empty response root: absent fields and absent query
roots all yield unset. -/
theorem missing_fields_yield_unset_witness :
    elem_value empty_root "SeriesName" = none ∧
    elem_value_cast empty_root "SeriesName" String.length = none ∧
    TvDB.get_series_by_id client_with_key net_empty (some "321") false =
      (.ok none, [series_url "123456789" (some "321")]) ∧
    TvDB.get_episode_by_id client_with_key net_empty (some "321") =
      (.ok none, [episode_url "123456789" (some "321")]) ∧
    TvDB.get_episode client_with_key net_empty (some "321") "6" "1" =
      (.ok none, [episode_by_number_url "123456789" (some "321") "6" "1"]) :=
  have h := missing_fields_yield_unset empty_root "SeriesName" String.length
    client_with_key "123456789" net_empty (some "321") (some "321") "6" "1" rfl
  ⟨h.1 rfl, h.2.2.1 (h.1 rfl), h.2.2.2.2.1 rfl, h.2.2.2.2.2.1 rfl,
   h.2.2.2.2.2.2 rfl⟩

/-- C9: every derived URL accessor (series banner, series poster, episode image)
on an entity constructed from a fragment equals the fixed base image url joined
with the raw relative-path field when that field is present (and nonempty, the
only form a parsed XML text can take), and is unset when the field is absent —
no fallback value. -/
theorem derived_urls_join_or_unset (sx ex : XmlElem) (b p i : String)
    (hb : b ≠ "") (hp : p ≠ "") (hi : i ≠ "") :
    (elem_value sx "banner" = some b →
      (SeriesData.ofXml sx).banner = some (urljoin base_image_url b)) ∧
    (elem_value sx "banner" = none → (SeriesData.ofXml sx).banner = none) ∧
    (elem_value sx "poster" = some p →
      (SeriesData.ofXml sx).poster = some (urljoin base_image_url p)) ∧
    (elem_value sx "poster" = none → (SeriesData.ofXml sx).poster = none) ∧
    (elem_value ex "filename" = some i →
      (Episode.ofXml ex).image = some (urljoin base_image_url i)) ∧
    (elem_value ex "filename" = none → (Episode.ofXml ex).image = none) := by
  refine ⟨?_, ?_, ?_, ?_, ?_, ?_⟩ <;> intro h <;>
    simp [SeriesData.ofXml, SeriesData.banner, SeriesData.poster, Episode.ofXml,
      Episode.image, h, hb, hp, hi]

/-- Witness for C9: both directions at concrete fragments. -/
theorem derived_urls_join_or_unset_witness :
    (SeriesData.ofXml series_with_images_ex).banner =
      some (urljoin base_image_url "graphical/80348-g32.jpg") ∧
    (SeriesData.ofXml series_with_images_ex).poster =
      some (urljoin base_image_url "posters/80348.jpg") ∧
    (Episode.ofXml episode_with_image_ex).image =
      some (urljoin base_image_url "episodes/80348/332179.jpg") ∧
    (SeriesData.ofXml empty_root).banner = none ∧
    (SeriesData.ofXml empty_root).poster = none ∧
    (Episode.ofXml empty_root).image = none :=
  have h1 := derived_urls_join_or_unset series_with_images_ex episode_with_image_ex
    "graphical/80348-g32.jpg" "posters/80348.jpg" "episodes/80348/332179.jpg"
    (by decide) (by decide) (by decide)
  have h2 := derived_urls_join_or_unset empty_root empty_root "x" "x" "x"
    (by decide) (by decide) (by decide)
  ⟨h1.1 rfl, h1.2.2.1 rfl, h1.2.2.2.2.1 rfl, h2.2.1 rfl, h2.2.2.2.1 rfl,
   h2.2.2.2.2.2 rfl⟩

/-- C10: for every Series instance, however constructed (so with exactly the
attribute names the source ever assigns), `get_episode(season, number)` fails
with an AttributeError on `_episodes` before any season lookup or network call —
whatever value that attribute would have had — because no code path assigns it;
it can never return an episode. -/
theorem series_get_episode_always_attribute_error (s : Series) (c : TvDB)
    (net : String → XmlElem) (season number : Int) (episodes_truthy : Bool) :
    Series.get_episode s c net season number series_assigned_attrs episodes_truthy =
      (.error (.attributeError "_episodes"), []) := by
  unfold Series.get_episode
  rw [if_neg (by decide)]

/-- C6: for every response document and valid kind, `updated_since` yields the
id-only records of the `./Series` entries followed by those of the `./Episode`
entries (series first, episodes after), in one request; and an id-only record is
exactly: id = the element's own text (even when an `id` child exists), kind = the
element's tag lower-cased, and every metadata attribute absent. -/
theorem updated_since_id_only_series_then_episodes (c : TvDB)
    (net : String → XmlElem) (ts k : String)
    (hk : k ∈ (["series", "episode", "all"] : List String)) :
    (c.updated_since net ts (some k)).1 =
      .ok (((net (updates_since_url k ts)).findall_tag "Series").map Update.id_only ++
        ((net (updates_since_url k ts)).findall_tag "Episode").map Update.id_only) ∧
    (c.updated_since net ts (some k)).2 = [updates_since_url k ts] ∧
    (∀ node : XmlElem,
      Update.id_only node = { id := node.text, kind := py_lower node.tag, meta := none }) := by
  refine ⟨?_, ?_, ?_⟩
  · simp [TvDB.updated_since, hk, parse_multiple_entries]
  · simp [TvDB.updated_since, hk]
  · intro node; rfl

/-- Witness for C6: on a concrete response carrying one Series and one Episode id
element, the result is the two id-only records in series-then-episode order, with
the id taken from the element's own text (the decoy `id` child is ignored). -/
theorem updated_since_id_only_series_then_episodes_witness :
    (TvDB.updated_since client_with_key net_updates_since "1234567890" (some "all")).1 =
      .ok [{ id := some "80348", kind := "series", meta := none },
           { id := some "332179", kind := "episode", meta := none }] ∧
    (TvDB.updated_since client_with_key net_updates_since "1234567890" (some "all")).2 =
      [updates_since_url "all" "1234567890"] :=
  have h := updated_since_id_only_series_then_episodes client_with_key
    net_updates_since "1234567890" "all" (by decide)
  ⟨h.1.trans (by rfl), h.2.1⟩

/-- C8: on a series whose seasons cache is unset, the first access performs the
one archive fetch and stores the built map; the access returns a series whose
cache now holds exactly the returned map; a second access returns the same map
and state with zero requests; and in general any series whose cache is set
answers without fetching. -/
theorem seasons_memoized_single_fetch (s : Series) (c : TvDB)
    (net : String → XmlElem) (hs : s._seasons = none) :
    (s.seasons c net).2.2 = [full_data_url c s.data.id] ∧
    (s.seasons c net).2.1._seasons = some (s.seasons c net).1 ∧
    ((s.seasons c net).2.1.seasons c net) =
      ((s.seasons c net).1, (s.seasons c net).2.1, []) ∧
    (∀ (s2 : Series) (m : SeasonsMap), s2._seasons = some m →
      s2.seasons c net = (m, s2, [])) := by
  have h4 : ∀ (s2 : Series) (m : SeasonsMap), s2._seasons = some m →
      Series.seasons s2 c net = (m, s2, []) := by
    intro s2 m hm
    simp [Series.seasons, hm]
  have h1 : s.seasons c net =
      ((s.load_episodes_from (net (full_data_url c s.data.id)))._seasons.getD [],
       s.load_episodes_from (net (full_data_url c s.data.id)),
       [full_data_url c s.data.id]) := by
    simp [Series.seasons, hs, Series.load_episodes]
  have hset : (s.load_episodes_from (net (full_data_url c s.data.id)))._seasons =
      some ((s.load_episodes_from (net (full_data_url c s.data.id)))._seasons.getD []) := by
    simp [Series.load_episodes_from]
  refine ⟨by rw [h1], ?_, ?_, h4⟩
  · rw [h1]
    exact hset
  · rw [h1]
    exact h4 _ _ hset

/-- Witness for C8 at a concrete unset series, client and archive oracle. -/
theorem seasons_memoized_single_fetch_witness :
    (series_ex.seasons client_with_key net_archive).2.2 =
      [full_data_url client_with_key series_ex.data.id] ∧
    (series_ex.seasons client_with_key net_archive).2.1._seasons =
      some (series_ex.seasons client_with_key net_archive).1 ∧
    ((series_ex.seasons client_with_key net_archive).2.1.seasons client_with_key
        net_archive) =
      ((series_ex.seasons client_with_key net_archive).1,
       (series_ex.seasons client_with_key net_archive).2.1, []) :=
  have h := seasons_memoized_single_fetch series_ex client_with_key net_archive rfl
  ⟨h.1, h.2.1, h.2.2.1⟩

/-- Helper: a pair found in an updated association list is the updated entry or
was already present. -/
theorem mem_dict_set {α : Type} (m : List (Option Int × α)) (k : Option Int)
    (v : α) (p : Option Int × α) (hp : p ∈ dict_set m k v) : p.2 = v ∨ p ∈ m := by
  induction m with
  | nil =>
      simp [dict_set] at hp
      left
      rw [hp]
  | cons hd tl ih =>
      rcases hd with ⟨k0, v0⟩
      by_cases h : (k0 == k) = true
      · simp [dict_set, h] at hp
        rcases hp with hp | hp
        · left; rw [hp]
        · right; simp [hp]
      · simp [dict_set, h] at hp
        rcases hp with hp | hp
        · right; simp [hp]
        · rcases ih hp with h2 | h2
          · left; exact h2
          · right; simp [h2]

/-- Helper: a successful association-list lookup names a value stored in the list. -/
theorem lookup_mem {α : Type} (m : List (Option Int × α)) (k : Option Int) (v : α)
    (h : m.lookup k = some v) : ∃ k2, (k2, v) ∈ m := by
  induction m with
  | nil => simp [List.lookup] at h
  | cons hd tl ih =>
      rcases hd with ⟨k0, v0⟩
      by_cases hk : (k == k0) = true
      · simp [List.lookup, hk] at h
        exact ⟨k0, by simp [h]⟩
      · simp [List.lookup, hk] at h
        rcases ih h with ⟨k2, hk2⟩
        exact ⟨k2, by simp [hk2]⟩

/-- Helper: an episode found in the seasons map after one insertion is the
inserted episode or was already stored. -/
theorem mem_seasons_episodes_insert (m : SeasonsMap) (e ep : Episode)
    (h : ep ∈ seasons_episodes (seasons_insert m e)) :
    ep = e ∨ ep ∈ seasons_episodes m := by
  simp only [seasons_insert] at h
  simp only [seasons_episodes, List.mem_flatten, List.mem_map] at h
  obtain ⟨l, ⟨p, hpmem, hpeq⟩, hepl⟩ := h
  subst hpeq
  rcases mem_dict_set _ _ _ _ hpmem with hpv | hpm
  · rw [hpv] at hepl
    rw [List.mem_map] at hepl
    obtain ⟨q, hq, hqeq⟩ := hepl
    subst hqeq
    rcases mem_dict_set _ _ _ _ hq with hqe | hqm
    · left; exact hqe
    · right
      cases hlk : m.lookup e.season with
      | none => rw [hlk] at hqm; simp at hqm
      | some inner0 =>
          rw [hlk] at hqm
          obtain ⟨k2, hk2⟩ := lookup_mem _ _ _ hlk
          simp only [seasons_episodes, List.mem_flatten, List.mem_map]
          exact ⟨inner0.map Prod.snd, ⟨(k2, inner0), hk2, rfl⟩,
            List.mem_map_of_mem _ hqm⟩
  · right
    simp only [seasons_episodes, List.mem_flatten, List.mem_map]
    exact ⟨p.2.map Prod.snd, ⟨p, hpm, rfl⟩, hepl⟩

/-- Helper: an episode stored after folding insertions came from the inserted
list or the initial map. -/
theorem mem_seasons_episodes_foldl (l : List Episode) (acc : SeasonsMap)
    (ep : Episode) (h : ep ∈ seasons_episodes (l.foldl seasons_insert acc)) :
    ep ∈ l ∨ ep ∈ seasons_episodes acc := by
  induction l generalizing acc with
  | nil =>
      right
      simpa using h
  | cons hd tl ih =>
      rcases ih (seasons_insert acc hd) h with h2 | h2
      · left; exact List.mem_cons_of_mem _ h2
      · rcases mem_seasons_episodes_insert _ _ _ h2 with h3 | h3
        · left; rw [h3]; exact List.mem_cons_self _ _
        · right; exact h3

/-- C7 counterexample: a standalone episode whose lookup finds no series is NOT
memoized.  The first access returns the episode unchanged (`_series` still
unset), having issued one request; hence a second access — on that very same
returned episode — issues the same nonempty request list again, contradicting
"the result is memoized so later accesses perform no further calls". -/
theorem episode_series_not_memoized_when_unset :
    Episode.series episode_standalone_ex client_with_key net_empty =
      .ok (none, episode_standalone_ex, [series_url "123456789" (some "80348")]) ∧
    ([series_url "123456789" (some "80348")] : List String) ≠ [] := by
  exact ⟨rfl, by simp⟩

/-- C7 as amended: episodes from a full-series archive load carry the owning
series' data eagerly, so `.series` answers without requests; a standalone episode
with an unset back-reference resolves it with exactly one get-series-by-id
request built from its `seriesid`, storing the fetched value; and any episode
whose back-reference is set answers without requests (so the standalone result
is memoized exactly when the lookup found a series). -/
theorem episode_series_lazy_amended (e : Episode) (c : TvDB) (key : String)
    (net : String → XmlElem) (s : Series) (d : XmlElem)
    (hkey : c.api_key = some key) (he : e._series = none) :
    (∀ ep : Episode,
      ep ∈ seasons_episodes ((s.load_episodes_from d)._seasons.getD []) →
      ep._series = some s.data ∧ Episode.series ep c net = .ok (some s.data, ep, [])) ∧
    (∀ v : Option SeriesData,
      v = (parse_entry (net (series_url key e.series_id)) "Series" Series.ofXml).map
            Series.data →
      Episode.series e c net =
        .ok (v, { e with _series := v }, [series_url key e.series_id])) ∧
    (∀ (ep : Episode) (sd : SeriesData), ep._series = some sd →
      Episode.series ep c net = .ok (some sd, ep, [])) := by
  have hmemo : ∀ (ep : Episode) (sd : SeriesData), ep._series = some sd →
      Episode.series ep c net = .ok (some sd, ep, []) := by
    intro ep sd hm
    simp [Episode.series, hm]
  refine ⟨?_, ?_, hmemo⟩
  · intro ep hep
    have hwired : ep._series = some s.data := by
      have hsplit : ep ∈ (parse_multiple_entries d "Episode"
            (fun x => Episode.ofXml x)).map
            (fun e2 => { e2 with _series := some s.data }) ∨
          ep ∈ seasons_episodes [] := by
        apply mem_seasons_episodes_foldl
        simpa [Series.load_episodes_from] using hep
      rcases hsplit with h2 | h2
      · rw [List.mem_map] at h2
        obtain ⟨e0, _, h0⟩ := h2
        rw [← h0]
      · simp [seasons_episodes] at h2
    exact ⟨hwired, hmemo ep s.data hwired⟩
  · intro v hv
    subst hv
    simp [Episode.series, he, TvDB.get_series_by_id, hkey]

/-- Witness for C7-as-amended: resolving the standalone episode against an oracle
that does return a series issues one request and memoizes the fetched data, after
which the access answers with zero requests. -/
theorem episode_series_lazy_amended_witness :
    Episode.series episode_standalone_ex client_with_key net_series_found =
      .ok (some fetched_series_data_ex, episode_memoized_ex,
        [series_url "123456789" (some "80348")]) ∧
    Episode.series episode_memoized_ex client_with_key net_series_found =
      .ok (some fetched_series_data_ex, episode_memoized_ex, []) :=
  have h := episode_series_lazy_amended episode_standalone_ex client_with_key
    "123456789" net_series_found series_ex archive_root_ex rfl rfl
  ⟨(h.2.1 (some fetched_series_data_ex) rfl).trans rfl,
   h.2.2 episode_memoized_ex fetched_series_data_ex rfl⟩

/-- C1 counterexample: a banner-kind update with no client handle raises the
client-unavailable error instead of yielding the joined banner URL — the source
checks `self._client is None` before looking at the kind. -/
theorem get_updated_item_banner_without_client_raises :
    banner_update_ex.kind = "banner" ∧
    Update.get_updated_item banner_update_ex none net_empty false =
      (.error .apiClientNotAvailable, []) ∧
    ((.error .apiClientNotAvailable, []) :
        Except Err UpdatedItem × List String) ≠
      (.ok (.url (urljoin base_image_url "posters/77170.jpg")), []) := by
  refine ⟨rfl, rfl, ?_⟩
  simp

/-- C1 as amended: `get_updated_item` requires the client handle for EVERY kind,
banner included, failing with the client-unavailable error exactly when the
handle is absent; with a handle, kind 'series' delegates to get-series-by-id with
this update's id, 'episode' to get-episode-by-id, and 'banner' returns the base
image URL joined with the update's path with zero network requests. -/
theorem get_updated_item_requires_client_for_all_kinds (u : Update) (c : TvDB)
    (net : String → XmlElem) (ext : Bool) (m : UpdateMeta) (p : String)
    (hm : u.meta = some m) (hp : m.path = some p) :
    Update.get_updated_item u none net ext = (.error .apiClientNotAvailable, []) ∧
    (u.kind = "series" →
      Update.get_updated_item u (some c) net ext =
        ((c.get_series_by_id net u.id ext).1.map UpdatedItem.series,
         (c.get_series_by_id net u.id ext).2)) ∧
    (u.kind = "episode" →
      Update.get_updated_item u (some c) net ext =
        ((c.get_episode_by_id net u.id).1.map UpdatedItem.episode,
         (c.get_episode_by_id net u.id).2)) ∧
    (u.kind = "banner" →
      Update.get_updated_item u (some c) net ext =
        (.ok (.url (urljoin base_image_url p)), [])) := by
  refine ⟨rfl, ?_, ?_, ?_⟩
  · intro hk
    rcases hres : c.get_series_by_id net u.id ext with ⟨r, reqs⟩
    cases r <;> simp [Update.get_updated_item, hk, hres, Except.map]
  · intro hk
    rcases hres : c.get_episode_by_id net u.id with ⟨r, reqs⟩
    cases r <;> simp [Update.get_updated_item, hk, hres, Except.map]
  · intro hk
    simp [Update.get_updated_item, hk, hm, hp]

/-- Witness for C1-as-amended at the concrete banner update: without a client the
call errors; with one, it yields the joined URL and no requests. -/
theorem get_updated_item_requires_client_for_all_kinds_witness :
    Update.get_updated_item banner_update_ex none net_empty false =
      (.error .apiClientNotAvailable, []) ∧
    Update.get_updated_item banner_update_ex (some client_with_key) net_empty false =
      (.ok (.url (urljoin base_image_url "posters/77170.jpg")), []) :=
  have h := get_updated_item_requires_client_for_all_kinds banner_update_ex
    client_with_key net_empty false
    { series := some "80348", season := none, path := some "posters/77170.jpg",
      type := none, format := none, language := none, timestamp := none }
    "posters/77170.jpg" rfl rfl
  ⟨h.1, h.2.2.2 rfl⟩

end Tvdbpy

